import Mathlib

/-!
Shallow embedding of the camera / geometry / batch-renderer core of the
PythonOpenGLBlog repository (src/src/graphics/camera.py, geometry.py,
batch_renderer.py and src/src/core/camera_controller.py), together with
proofs of the specification claims about it.

Real-valued float32 computations are embedded over the exact reals; the
batch renderer (pure linear arithmetic) is embedded over the rationals so
that concrete runs are decidable.
-/

set_option maxHeartbeats 1000000

/-! Numeric helpers shared by the camera code (numpy counterparts). -/

/-- Embedding of numpy.radians: degrees to radians. -/
noncomputable def radians (deg : ℝ) : ℝ := deg * (Real.pi / 180)

/-- Embedding of numpy.degrees: radians to degrees. -/
noncomputable def degrees (rad : ℝ) : ℝ := rad * (180 / Real.pi)

/-- Embedding of numpy.clip(v, lo, hi). -/
noncomputable def clip (v lo hi : ℝ) : ℝ := min (max v lo) hi

/-- Embedding of numpy.arctan2(y, x): the angle of the point (x, y),
in (-pi, pi], with arctan2 0 0 = 0.  Realised as the complex argument. -/
noncomputable def arctan2 (y x : ℝ) : ℝ := Complex.arg (Complex.mk x y)

/-- A 3-component float vector (numpy arrays of shape (3,) in camera.py). -/
structure Vec3 where
  x : ℝ
  y : ℝ
  z : ℝ

def Vec3.add (a b : Vec3) : Vec3 := ⟨a.x + b.x, a.y + b.y, a.z + b.z⟩

def Vec3.sub (a b : Vec3) : Vec3 := ⟨a.x - b.x, a.y - b.y, a.z - b.z⟩

/-- Componentwise division by a scalar (numpy v / s). -/
noncomputable def Vec3.divScalar (v : Vec3) (s : ℝ) : Vec3 := ⟨v.x / s, v.y / s, v.z / s⟩

/-- Embedding of numpy.cross for 3-vectors. -/
def Vec3.cross (a b : Vec3) : Vec3 :=
  ⟨a.y * b.z - a.z * b.y, a.z * b.x - a.x * b.z, a.x * b.y - a.y * b.x⟩

/-- Embedding of numpy.dot for 3-vectors. -/
def Vec3.dot (a b : Vec3) : ℝ := a.x * b.x + a.y * b.y + a.z * b.z

/-- Embedding of numpy.linalg.norm for 3-vectors. -/
noncomputable def Vec3.norm (v : Vec3) : ℝ := Real.sqrt (v.x ^ 2 + v.y ^ 2 + v.z ^ 2)

/-- A 4x4 float matrix, entries written out (row, column). -/
structure Mat4 where
  m00 : ℝ
  m01 : ℝ
  m02 : ℝ
  m03 : ℝ
  m10 : ℝ
  m11 : ℝ
  m12 : ℝ
  m13 : ℝ
  m20 : ℝ
  m21 : ℝ
  m22 : ℝ
  m23 : ℝ
  m30 : ℝ
  m31 : ℝ
  m32 : ℝ
  m33 : ℝ

/-- Embedding of numpy.eye(4). -/
def Mat4.identity : Mat4 :=
  ⟨1, 0, 0, 0, 0, 1, 0, 0, 0, 0, 1, 0, 0, 0, 0, 1⟩

/-! Camera3D (src/src/graphics/camera.py, class Camera3D). -/

/-- State of Camera3D: viewport-derived aspect, position/target/up vectors,
perspective parameters, and the two cached matrices. -/
structure Camera3D where
  aspect : ℝ
  position : Vec3
  target : Vec3
  up : Vec3
  fov : ℝ
  near : ℝ
  far : ℝ
  viewMatrix : Mat4
  projectionMatrix : Mat4

/-- Embedding of Camera3D._update_view_matrix: the look-at construction,
with normalization of forward/right skipped when the length is not > 0. -/
noncomputable def Camera3D.update_view_matrix (c : Camera3D) : Camera3D :=
  let eye := c.position
  let forward0 := c.target.sub eye
  let forwardLen := forward0.norm
  let forward := if forwardLen > 0 then forward0.divScalar forwardLen else forward0
  let right0 := forward.cross c.up
  let rightLen := right0.norm
  let right := if rightLen > 0 then right0.divScalar rightLen else right0
  let upNew := right.cross forward
  let m : Mat4 :=
    { m00 := right.x, m01 := right.y, m02 := right.z, m03 := -(right.dot eye)
      m10 := upNew.x, m11 := upNew.y, m12 := upNew.z, m13 := -(upNew.dot eye)
      m20 := -forward.x, m21 := -forward.y, m22 := -forward.z, m23 := forward.dot eye
      m30 := 0, m31 := 0, m32 := 0, m33 := 1 }
  { c with viewMatrix := m }

/-- Embedding of Camera3D._update_projection_matrix (OpenGL-style perspective). -/
noncomputable def Camera3D.update_projection_matrix (c : Camera3D) : Camera3D :=
  let fovRad := radians c.fov
  let f := 1 / Real.tan (fovRad / 2)
  let m : Mat4 :=
    { m00 := f / c.aspect, m01 := 0, m02 := 0, m03 := 0
      m10 := 0, m11 := f, m12 := 0, m13 := 0
      m20 := 0, m21 := 0, m22 := (c.far + c.near) / (c.near - c.far)
      m23 := (2 * c.far * c.near) / (c.near - c.far)
      m30 := 0, m31 := 0, m32 := -1, m33 := 0 }
  { c with projectionMatrix := m }

/-- Embedding of Camera3D.__init__(width, height). -/
noncomputable def Camera3D.init (width height : ℕ) : Camera3D :=
  let c : Camera3D :=
    { aspect := if 0 < height then (width : ℝ) / (height : ℝ) else 1
      position := ⟨0, 0, 5⟩
      target := ⟨0, 0, 0⟩
      up := ⟨0, 1, 0⟩
      fov := 45
      near := 0.1
      far := 100
      viewMatrix := Mat4.identity
      projectionMatrix := Mat4.identity }
  c.update_view_matrix.update_projection_matrix

/-- Embedding of Camera3D.set_position. -/
noncomputable def Camera3D.set_position (c : Camera3D) (x y z : ℝ) : Camera3D :=
  ({ c with position := ⟨x, y, z⟩ } : Camera3D).update_view_matrix

/-- Embedding of Camera3D.set_target. -/
noncomputable def Camera3D.set_target (c : Camera3D) (x y z : ℝ) : Camera3D :=
  ({ c with target := ⟨x, y, z⟩ } : Camera3D).update_view_matrix

/-- Embedding of Camera3D.set_fov: clamps to [1, 179] then updates projection. -/
noncomputable def Camera3D.set_fov (c : Camera3D) (fov : ℝ) : Camera3D :=
  ({ c with fov := max 1 (min 179 fov) } : Camera3D).update_projection_matrix

/-- Embedding of Camera3D.translate: moves position and target by the same delta. -/
noncomputable def Camera3D.translate (c : Camera3D) (dx dy dz : ℝ) : Camera3D :=
  ({ c with position := c.position.add ⟨dx, dy, dz⟩
            target := c.target.add ⟨dx, dy, dz⟩ } : Camera3D).update_view_matrix

/-- Embedding of Camera3D.set_orbit(azimuth, elevation, distance): places the
camera on the sphere around the target from spherical coordinates. -/
noncomputable def Camera3D.set_orbit (c : Camera3D) (azimuth elevation distance : ℝ) : Camera3D :=
  let azimuthRad := radians azimuth
  let elevationRad := radians elevation
  let x := distance * Real.cos elevationRad * Real.sin azimuthRad
  let y := distance * Real.sin elevationRad
  let z := distance * Real.cos elevationRad * Real.cos azimuthRad
  ({ c with position := c.target.add ⟨x, y, z⟩ } : Camera3D).update_view_matrix

/-- Embedding of Camera3D.get_orbit: recovers (azimuth, elevation, distance)
from position - target, returning (0, 0, distance) when distance < 0.001. -/
noncomputable def Camera3D.get_orbit (c : Camera3D) : ℝ × ℝ × ℝ :=
  let rel := c.position.sub c.target
  let dist := rel.norm
  if dist < 0.001 then (0, 0, dist)
  else
    let elevation := degrees (Real.arcsin (clip (rel.y / dist) (-1) 1))
    let azimuth := degrees (arctan2 (rel.x / dist) (rel.z / dist))
    (azimuth, elevation, dist)

/-! Camera2D (src/src/graphics/camera.py, class Camera2D). -/

/-- State of Camera2D: XY offset, zoom, rotation (degrees), clip planes,
viewport aspect, and the cached matrices. -/
structure Camera2D where
  aspect : ℝ
  positionX : ℝ
  positionY : ℝ
  zoom : ℝ
  rotation : ℝ
  near : ℝ
  far : ℝ
  viewMatrix : Mat4
  projectionMatrix : Mat4

/-- Embedding of Camera2D._update_view_matrix: rotation block plus the
rotated negative position in the translation column. -/
noncomputable def Camera2D.update_view_matrix (c : Camera2D) : Camera2D :=
  let angleRad := radians c.rotation
  let cosA := Real.cos angleRad
  let sinA := Real.sin angleRad
  let m : Mat4 :=
    { Mat4.identity with
      m00 := cosA, m01 := sinA
      m10 := -sinA, m11 := cosA
      m03 := -(cosA * c.positionX + sinA * c.positionY)
      m13 := -(-sinA * c.positionX + cosA * c.positionY) }
  { c with viewMatrix := m }

/-- Embedding of Camera2D._update_projection_matrix (symmetric orthographic box). -/
noncomputable def Camera2D.update_projection_matrix (c : Camera2D) : Camera2D :=
  let halfWidth := c.aspect / c.zoom
  let halfHeight := 1 / c.zoom
  let left := -halfWidth
  let right := halfWidth
  let bottom := -halfHeight
  let top := halfHeight
  let m : Mat4 :=
    { m00 := 2 / (right - left), m01 := 0, m02 := 0
      m03 := -(right + left) / (right - left)
      m10 := 0, m11 := 2 / (top - bottom), m12 := 0
      m13 := -(top + bottom) / (top - bottom)
      m20 := 0, m21 := 0, m22 := -2 / (c.far - c.near)
      m23 := -(c.far + c.near) / (c.far - c.near)
      m30 := 0, m31 := 0, m32 := 0, m33 := 1 }
  { c with projectionMatrix := m }

/-- Embedding of Camera2D.__init__(width, height). -/
noncomputable def Camera2D.init (width height : ℕ) : Camera2D :=
  let c : Camera2D :=
    { aspect := if 0 < height then (width : ℝ) / (height : ℝ) else 1
      positionX := 0
      positionY := 0
      zoom := 1
      rotation := 0
      near := -10
      far := 10
      viewMatrix := Mat4.identity
      projectionMatrix := Mat4.identity }
  c.update_view_matrix.update_projection_matrix

/-- Embedding of Camera2D.set_zoom: clamps the zoom to a minimum of 0.01. -/
noncomputable def Camera2D.set_zoom (c : Camera2D) (zoom : ℝ) : Camera2D :=
  ({ c with zoom := max 0.01 zoom } : Camera2D).update_projection_matrix

/-- Embedding of Camera2D.set_rotation: normalizes the angle modulo 360. -/
noncomputable def Camera2D.set_rotation (c : Camera2D) (rotation : ℝ) : Camera2D :=
  ({ c with rotation := rotation % 360 } : Camera2D).update_view_matrix

/-! Point/line geometry size setters (src/src/graphics/geometry.py,
PointGeometry.set_point_size and LineGeometry.set_line_width). -/

/-- State of PointGeometry relevant to its size API: the point list
(6 floats per point) and the point size. -/
structure PointGeometry where
  points : List (ℝ × ℝ × ℝ × ℝ × ℝ × ℝ)
  pointSize : ℝ

/-- Embedding of PointGeometry.__init__ with no initial points. -/
def PointGeometry.init : PointGeometry := { points := [], pointSize := 5 }

/-- Embedding of PointGeometry.set_point_size: clamps to a minimum of 1. -/
noncomputable def PointGeometry.set_point_size (p : PointGeometry) (size : ℝ) : PointGeometry :=
  { p with pointSize := max 1 size }

/-- State of LineGeometry relevant to its width API. -/
structure LineGeometry where
  lines : List ((ℝ × ℝ × ℝ × ℝ × ℝ × ℝ) × (ℝ × ℝ × ℝ × ℝ × ℝ × ℝ))
  lineWidth : ℝ

/-- Embedding of LineGeometry.__init__ with no initial lines. -/
def LineGeometry.init : LineGeometry := { lines := [], lineWidth := 2 }

/-- Embedding of LineGeometry.set_line_width: clamps to a minimum of 1. -/
noncomputable def LineGeometry.set_line_width (l : LineGeometry) (width : ℝ) : LineGeometry :=
  { l with lineWidth := max 1 width }

/-! Camera controller, 3D primary-drag branch
(src/src/core/camera_controller.py, CameraController._update_3d_camera,
left-drag block, lines 110-118). -/

/-- Embedding of the left-drag (orbit) block of
CameraController._update_3d_camera: reads the current orbit triple, applies
the drag deltas scaled by the orbit sensitivity, clamps the elevation to
[-89, 89], and calls set_orbit once with all three values. -/
noncomputable def CameraController.update_3d_left_drag
    (cam : Camera3D) (dx dy orbitSensitivity : ℝ) : Camera3D :=
  let o := cam.get_orbit
  let azimuth := o.1 - dx * orbitSensitivity
  let elevation := o.2.1 + dy * orbitSensitivity
  let elevationClamped := max (-89) (min 89 elevation)
  cam.set_orbit azimuth elevationClamped o.2.2

/-! Geometry generators (src/src/graphics/geometry.py, get_vertex_data of
RectangleGeometry, CubeGeometry and SphereGeometry).  Vertices are rows of
6 floats (x, y, z, r, g, b); indices are the flat uint32 index list. -/

/-- One vertex row of a geometry: position (x, y, z) and color (r, g, b). -/
structure VertexRow where
  x : ℝ
  y : ℝ
  z : ℝ
  r : ℝ
  g : ℝ
  b : ℝ

/-- Embedding of the vertex half of RectangleGeometry.get_vertex_data. -/
noncomputable def RectangleGeometry.vertexRows (width height r g b : ℝ) : List VertexRow :=
  let w := width / 2
  let h := height / 2
  [⟨-w, -h, 0, r, g, b⟩, ⟨w, -h, 0, r, g, b⟩, ⟨w, h, 0, r, g, b⟩, ⟨-w, h, 0, r, g, b⟩]

/-- Embedding of the index half of RectangleGeometry.get_vertex_data. -/
def RectangleGeometry.indexList : List ℕ := [0, 1, 2, 2, 3, 0]

/-- Embedding of RectangleGeometry.get_vertex_data. -/
noncomputable def RectangleGeometry.get_vertex_data (width height r g b : ℝ) :
    List VertexRow × List ℕ :=
  (RectangleGeometry.vertexRows width height r g b, RectangleGeometry.indexList)

/-- Embedding of the vertex half of CubeGeometry.get_vertex_data (8 corners). -/
noncomputable def CubeGeometry.vertexRows (size r g b : ℝ) : List VertexRow :=
  let s := size / 2
  [⟨-s, -s, s, r, g, b⟩, ⟨s, -s, s, r, g, b⟩, ⟨s, s, s, r, g, b⟩, ⟨-s, s, s, r, g, b⟩,
   ⟨-s, -s, -s, r, g, b⟩, ⟨s, -s, -s, r, g, b⟩, ⟨s, s, -s, r, g, b⟩, ⟨-s, s, -s, r, g, b⟩]

/-- Embedding of the index half of CubeGeometry.get_vertex_data (12 triangles). -/
def CubeGeometry.indexList : List ℕ :=
  [0, 1, 2, 2, 3, 0,
   5, 4, 7, 7, 6, 5,
   4, 0, 3, 3, 7, 4,
   1, 5, 6, 6, 2, 1,
   3, 2, 6, 6, 7, 3,
   4, 5, 1, 1, 0, 4]

/-- Embedding of CubeGeometry.get_vertex_data. -/
noncomputable def CubeGeometry.get_vertex_data (size r g b : ℝ) :
    List VertexRow × List ℕ :=
  (CubeGeometry.vertexRows size r g b, CubeGeometry.indexList)

/-- One sphere vertex from its ring and segment counters (geometry.py,
SphereGeometry.get_vertex_data vertex loop body). -/
noncomputable def SphereGeometry.vertexAt (radius : ℝ) (segments rings ring segment : ℕ)
    (r g b : ℝ) : VertexRow :=
  let theta := Real.pi * ring / rings
  let phi := 2 * Real.pi * segment / segments
  ⟨radius * Real.sin theta * Real.cos phi,
   radius * Real.cos theta,
   radius * Real.sin theta * Real.sin phi, r, g, b⟩

/-- Embedding of the vertex loop of SphereGeometry.get_vertex_data:
one vertex per (ring, segment) pair with ring in 0..rings and
segment in 0..segments, inclusive. -/
noncomputable def SphereGeometry.vertexRows (radius : ℝ) (segments rings : ℕ)
    (r g b : ℝ) : List VertexRow :=
  (List.range (rings + 1)).flatMap fun ring =>
    (List.range (segments + 1)).map fun segment =>
      SphereGeometry.vertexAt radius segments rings ring segment r g b

/-- Embedding of the index loop of SphereGeometry.get_vertex_data: for each
ring in 0..rings-1 and segment in 0..segments-1, two triangles. -/
def SphereGeometry.indexList (segments rings : ℕ) : List ℕ :=
  (List.range rings).flatMap fun ring =>
    (List.range segments).flatMap fun segment =>
      let first := ring * (segments + 1) + segment
      let second := first + segments + 1
      [first, second, first + 1, second, second + 1, first + 1]

/-- Embedding of SphereGeometry.get_vertex_data. -/
noncomputable def SphereGeometry.get_vertex_data (radius : ℝ) (segments rings : ℕ)
    (r g b : ℝ) : List VertexRow × List ℕ :=
  (SphereGeometry.vertexRows radius segments rings r g b,
   SphereGeometry.indexList segments rings)

/-! Batch renderer (src/src/graphics/batch_renderer.py).  The vertex data is
embedded over the rationals, so every operation here is computable; the
OpenGL calls are modelled by the buffer/handle fields of the state (a
created handle is represented by 1, a deleted one by 0, and glBufferData
by storing the uploaded arrays). -/

/-- One vertex of a batch: position (x, y, z) and color (r, g, b). -/
structure QVertex where
  x : ℚ
  y : ℚ
  z : ℚ
  r : ℚ
  g : ℚ
  b : ℚ
deriving DecidableEq

/-- A 4x4 rational matrix (model transform of a batch). -/
structure QMat4 where
  m00 : ℚ
  m01 : ℚ
  m02 : ℚ
  m03 : ℚ
  m10 : ℚ
  m11 : ℚ
  m12 : ℚ
  m13 : ℚ
  m20 : ℚ
  m21 : ℚ
  m22 : ℚ
  m23 : ℚ
  m30 : ℚ
  m31 : ℚ
  m32 : ℚ
  m33 : ℚ
deriving DecidableEq

/-- Embedding of numpy.eye(4) over the rationals. -/
def QMat4.identity : QMat4 :=
  ⟨1, 0, 0, 0, 0, 1, 0, 0, 0, 0, 1, 0, 0, 0, 0, 1⟩

/-- The affine translation matrix by (tx, ty, tz). -/
def QMat4.translation (tx ty tz : ℚ) : QMat4 :=
  { QMat4.identity with m03 := tx, m13 := ty, m23 := tz }

/-- Embedding of the PrimitiveType enum of batch_renderer.py. -/
inductive BatchPrimitiveType where
  | points
  | lines
  | triangles
deriving DecidableEq

/-- Embedding of the RenderBatch dataclass. -/
structure RenderBatch where
  vertices : List QVertex
  indices : Option (List ℕ)
  transform : QMat4
  vertexOffset : ℕ := 0
  vertexCount : ℕ := 0
  indexOffset : ℕ := 0
  indexCount : ℕ := 0
deriving DecidableEq

/-- Embedding of the BatchRenderer state. -/
structure BatchRenderer where
  primitiveType : BatchPrimitiveType
  batches : List RenderBatch := []
  vao : ℕ := 0
  vbo : ℕ := 0
  ebo : ℕ := 0
  isDirty : Bool := false
  useIndices : Bool := false
  totalVertices : ℕ := 0
  totalIndices : ℕ := 0
  bufferVertices : List QVertex := []
  bufferIndices : Option (List ℕ) := none
deriving DecidableEq

/-- Embedding of BatchRenderer.__init__(primitive_type). -/
def BatchRenderer.init (pt : BatchPrimitiveType) : BatchRenderer :=
  { primitiveType := pt }

/-- Embedding of BatchRenderer.add_geometry: rejects empty vertex input,
records the batch, sets the sticky use-indices flag, marks the state dirty. -/
def BatchRenderer.add_geometry (rend : BatchRenderer) (vertices : List QVertex)
    (indices : Option (List ℕ)) (transform : QMat4) : BatchRenderer :=
  if vertices = [] then rend
  else
    let batch : RenderBatch :=
      { vertices := vertices
        indices := indices
        transform := transform
        vertexCount := vertices.length
        indexCount := match indices with | some is => is.length | none => 0 }
    { rend with
      batches := rend.batches ++ [batch]
      useIndices := rend.useIndices || indices.isSome
      isDirty := true }

/-- Embedding of BatchRenderer.clear. -/
def BatchRenderer.clear (rend : BatchRenderer) : BatchRenderer :=
  { rend with batches := [], isDirty := true, totalVertices := 0, totalIndices := 0 }

/-- Embedding of BatchRenderer._apply_transform: homogeneous transform of
each position (w appended as 1, then division by the transformed w); the
color components are untouched. -/
def BatchRenderer.apply_transform (vertices : List QVertex) (t : QMat4) : List QVertex :=
  if vertices = [] then vertices
  else vertices.map fun v =>
    let tx := t.m00 * v.x + t.m01 * v.y + t.m02 * v.z + t.m03
    let ty := t.m10 * v.x + t.m11 * v.y + t.m12 * v.z + t.m13
    let tz := t.m20 * v.x + t.m21 * v.y + t.m22 * v.z + t.m23
    let tw := t.m30 * v.x + t.m31 * v.y + t.m32 * v.z + t.m33
    { v with x := tx / tw, y := ty / tw, z := tz / tw }

/-- The offset-recording pass of BatchRenderer.build: each batch receives the
running vertex offset, which then advances by its vertex count. -/
def BatchRenderer.assignOffsets : List RenderBatch → ℕ → List RenderBatch
  | [], _ => []
  | b :: bs, off =>
      ({ b with vertexOffset := off } : RenderBatch) ::
        BatchRenderer.assignOffsets bs (off + b.vertexCount)

/-- Embedding of BatchRenderer._combine_indices: collects each indexed
batch's indices shifted by that batch's vertex offset; None when indices are
unused or no batch contributed an index array. -/
def BatchRenderer.combine_indices (useIndices : Bool) (batches : List RenderBatch) :
    Option (List ℕ) :=
  if useIndices = false then none
  else
    let combined := batches.filterMap fun b =>
      b.indices.map fun is => is.map fun i => i + b.vertexOffset
    if combined = [] then none else some combined.flatten

/-- Embedding of BatchRenderer._create_buffers: deletes the previous GL
objects, then (for nonempty vertex data) creates the VAO/VBO, uploads the
vertices, and creates/uploads the EBO when a nonempty index array is given. -/
def BatchRenderer.create_buffers (rend : BatchRenderer) (vertices : List QVertex)
    (indices : Option (List ℕ)) : BatchRenderer :=
  let rend := { rend with vao := 0, vbo := 0, ebo := 0
                          bufferVertices := [], bufferIndices := none }
  if vertices = [] then rend
  else
    let rend := { rend with vao := 1, vbo := 1, bufferVertices := vertices }
    match indices with
    | some is => if is = [] then rend else { rend with ebo := 1, bufferIndices := some is }
    | none => rend

/-- Embedding of BatchRenderer.build: no-op unless dirty with queued batches;
otherwise records offsets, transforms and concatenates the vertex data,
combines indices when in indexed mode, creates the GL buffers and clears the
dirty flag. -/
def BatchRenderer.build (rend : BatchRenderer) : BatchRenderer :=
  if rend.batches = [] ∨ rend.isDirty = false then rend
  else
    let batchesWithOffsets := BatchRenderer.assignOffsets rend.batches 0
    let transformedBatches := batchesWithOffsets.map fun b =>
      BatchRenderer.apply_transform b.vertices b.transform
    let combinedVertices := transformedBatches.flatten
    let combinedIndices :=
      if rend.useIndices then BatchRenderer.combine_indices rend.useIndices batchesWithOffsets
      else none
    let totalIndices :=
      if rend.useIndices then
        match combinedIndices with | some l => l.length | none => 0
      else rend.totalIndices
    let rend := { rend with
      batches := batchesWithOffsets
      totalVertices := combinedVertices.length
      totalIndices := totalIndices }
    let rend := rend.create_buffers combinedVertices combinedIndices
    { rend with isDirty := false }

/-- The draw call issued by BatchRenderer.flush. -/
inductive DrawCall where
  | noDraw
  | drawElements (count : ℕ)
  | drawArrays (count : ℕ)
deriving DecidableEq

/-- Embedding of BatchRenderer.flush: builds when dirty, then draws nothing
for a missing VAO or empty buffer, an indexed draw when indices are in use
and present, and an array draw otherwise. -/
def BatchRenderer.flush (rend : BatchRenderer) : BatchRenderer × DrawCall :=
  let rend := if rend.isDirty then rend.build else rend
  if rend.vao = 0 ∨ rend.totalVertices = 0 then (rend, DrawCall.noDraw)
  else if rend.useIndices = true ∧ 0 < rend.totalIndices then
    (rend, DrawCall.drawElements rend.totalIndices)
  else (rend, DrawCall.drawArrays rend.totalVertices)

/-- Embedding of the batch_count property. -/
def BatchRenderer.batch_count (rend : BatchRenderer) : ℕ := rend.batches.length

/-! Specification-side descriptions (written from the spec wording, for the
refinement claims about build).  specTransformPos follows the sentence
"append w=1, multiply by the matrix, divide by the resulting w";
specRebasedIndices follows "add each batch's vertex offset within the
concatenated vertex buffer to that batch's index values and concatenate". -/

/-- The matrix-times-column-4-vector product. -/
def QMat4.mulVec4 (t : QMat4) (p : ℚ × ℚ × ℚ × ℚ) : ℚ × ℚ × ℚ × ℚ :=
  (t.m00 * p.1 + t.m01 * p.2.1 + t.m02 * p.2.2.1 + t.m03 * p.2.2.2,
   t.m10 * p.1 + t.m11 * p.2.1 + t.m12 * p.2.2.1 + t.m13 * p.2.2.2,
   t.m20 * p.1 + t.m21 * p.2.1 + t.m22 * p.2.2.1 + t.m23 * p.2.2.2,
   t.m30 * p.1 + t.m31 * p.2.1 + t.m32 * p.2.2.1 + t.m33 * p.2.2.2)

/-- Spec wording of the per-position homogeneous transform: append w = 1,
multiply by the model matrix, divide by the resulting w. -/
def specTransformPos (t : QMat4) (x y z : ℚ) : ℚ × ℚ × ℚ :=
  let h := t.mulVec4 (x, y, z, 1)
  (h.1 / h.2.2.2, h.2.1 / h.2.2.2, h.2.2.1 / h.2.2.2)

/-- Spec wording of a whole batch queue's merged vertices: per batch, each
vertex position is transformed by that batch's model matrix and the colors
pass through; the blocks are concatenated in insertion order. -/
def specMergedVertices (batches : List RenderBatch) : List QVertex :=
  batches.flatMap fun b => b.vertices.map fun v =>
    let p := specTransformPos b.transform v.x v.y v.z
    { x := p.1, y := p.2.1, z := p.2.2, r := v.r, g := v.g, b := v.b }

/-- Spec wording of the merged index array: each batch's index values shifted
by its vertex offset within the concatenated vertex buffer (the sum of the
vertex counts of the earlier batches), concatenated in insertion order. -/
def specRebasedIndices : List RenderBatch → ℕ → List ℕ
  | [], _ => []
  | b :: bs, off =>
      (match b.indices with | some is => is.map fun i => i + off | none => []) ++
        specRebasedIndices bs (off + b.vertexCount)

/-! Helper lemmas about the numeric embedding. -/

lemma degrees_radians (x : ℝ) : degrees (radians x) = x := by
  unfold degrees radians
  have h := Real.pi_ne_zero
  field_simp

lemma radians_lt_pi_half {e : ℝ} (h : e < 90) : radians e < Real.pi / 2 := by
  unfold radians
  nlinarith [Real.pi_pos]

lemma neg_pi_half_lt_radians {e : ℝ} (h : -90 < e) : -(Real.pi / 2) < radians e := by
  unfold radians
  nlinarith [Real.pi_pos]

lemma radians_le_pi {a : ℝ} (h : a ≤ 180) : radians a ≤ Real.pi := by
  unfold radians
  nlinarith [Real.pi_pos]

lemma neg_pi_lt_radians {a : ℝ} (h : -180 < a) : -Real.pi < radians a := by
  unfold radians
  nlinarith [Real.pi_pos]

lemma clip_sin (x : ℝ) : clip (Real.sin x) (-1) 1 = Real.sin x := by
  unfold clip
  rw [max_eq_left (Real.neg_one_le_sin x), min_eq_left (Real.sin_le_one x)]

/-- arctan2 recovers the angle of a positively scaled point on the unit
circle, for angles in (-pi, pi]. -/
lemma arctan2_scaled_circle {s t : ℝ} (hs : 0 < s)
    (ht1 : -Real.pi < t) (ht2 : t ≤ Real.pi) :
    arctan2 (s * Real.sin t) (s * Real.cos t) = t := by
  unfold arctan2
  have hmk : Complex.mk (s * Real.cos t) (s * Real.sin t) =
      (s : ℂ) * Complex.mk (Real.cos t) (Real.sin t) := by
    rw [Complex.mk_eq_add_mul_I, Complex.mk_eq_add_mul_I]
    push_cast
    ring
  have hcs : Complex.mk (Real.cos t) (Real.sin t) =
      Complex.cos t + Complex.sin t * Complex.I := by
    rw [Complex.mk_eq_add_mul_I, Complex.ofReal_cos, Complex.ofReal_sin]
  rw [hmk, Complex.arg_real_mul _ hs, hcs]
  exact Complex.arg_cos_add_sin_mul_I ⟨ht1, ht2⟩

/-! Helper lemmas about set_orbit / get_orbit. -/

lemma set_orbit_rel (c : Camera3D) (a e d : ℝ) :
    (c.set_orbit a e d).position.sub (c.set_orbit a e d).target =
      ⟨d * Real.cos (radians e) * Real.sin (radians a),
       d * Real.sin (radians e),
       d * Real.cos (radians e) * Real.cos (radians a)⟩ := by
  show (c.target.add _).sub c.target = _
  simp [Vec3.add, Vec3.sub]

lemma orbit_vec_norm (a e d : ℝ) (hd : 0 ≤ d) :
    Vec3.norm ⟨d * Real.cos (radians e) * Real.sin (radians a),
               d * Real.sin (radians e),
               d * Real.cos (radians e) * Real.cos (radians a)⟩ = d := by
  unfold Vec3.norm
  have hsum : (d * Real.cos (radians e) * Real.sin (radians a)) ^ 2 +
      (d * Real.sin (radians e)) ^ 2 +
      (d * Real.cos (radians e) * Real.cos (radians a)) ^ 2 = d ^ 2 := by
    have hs := Real.sin_sq_add_cos_sq (radians a)
    have hs2 := Real.sin_sq_add_cos_sq (radians e)
    linear_combination d ^ 2 * (Real.cos (radians e)) ^ 2 * hs + d ^ 2 * hs2
  show Real.sqrt _ = d
  rw [show (d * Real.cos (radians e) * Real.sin (radians a)) ^ 2 +
      (d * Real.sin (radians e)) ^ 2 +
      (d * Real.cos (radians e) * Real.cos (radians a)) ^ 2 = d ^ 2 from hsum,
    Real.sqrt_sq hd]

/-- Evaluation of get_orbit on the state left by set_orbit, provided the
distance passes the 0.001 degeneracy guard and the elevation stays strictly
inside (-90, 90). -/
lemma get_orbit_set_orbit (c : Camera3D) (a e d : ℝ)
    (he1 : -90 < e) (he2 : e < 90) (hd : 0.001 ≤ d) :
    (c.set_orbit a e d).get_orbit =
      (degrees (arctan2 (Real.cos (radians e) * Real.sin (radians a))
                        (Real.cos (radians e) * Real.cos (radians a))),
       e, d) := by
  have hd0 : (0:ℝ) < d := lt_of_lt_of_le (by norm_num) hd
  have hrel := set_orbit_rel c a e d
  have hnorm : ((c.set_orbit a e d).position.sub (c.set_orbit a e d).target).norm = d := by
    rw [hrel]
    exact orbit_vec_norm a e d (le_of_lt hd0)
  have hguard : ¬ ((c.set_orbit a e d).position.sub (c.set_orbit a e d).target).norm < 0.001 := by
    rw [hnorm]
    linarith
  unfold Camera3D.get_orbit
  rw [if_neg hguard, hnorm, hrel]
  have hxd : d * Real.cos (radians e) * Real.sin (radians a) / d =
      Real.cos (radians e) * Real.sin (radians a) := by
    field_simp
    ring
  have hyd : d * Real.sin (radians e) / d = Real.sin (radians e) := by
    field_simp
  have hzd : d * Real.cos (radians e) * Real.cos (radians a) / d =
      Real.cos (radians e) * Real.cos (radians a) := by
    field_simp
    ring
  show (_, degrees (Real.arcsin (clip (d * Real.sin (radians e) / d) (-1) 1)), d) = _
  rw [hxd, hyd, hzd, clip_sin,
    Real.arcsin_sin (le_of_lt (neg_pi_half_lt_radians he1)) (le_of_lt (radians_lt_pi_half he2)),
    degrees_radians]

/-- Full orbit round-trip over the exact reals: get_orbit after set_orbit
returns exactly the orbit triple that was set. -/
lemma get_orbit_set_orbit_exact (c : Camera3D) (a e d : ℝ)
    (ha1 : -180 < a) (ha2 : a < 180) (he1 : -90 < e) (he2 : e < 90)
    (hd : 0.001 ≤ d) :
    (c.set_orbit a e d).get_orbit = (a, e, d) := by
  rw [get_orbit_set_orbit c a e d he1 he2 hd]
  have hcos : 0 < Real.cos (radians e) :=
    Real.cos_pos_of_mem_Ioo ⟨neg_pi_half_lt_radians he1, radians_lt_pi_half he2⟩
  rw [show Real.cos (radians e) * Real.sin (radians a) =
        Real.cos (radians e) * Real.sin (radians a) from rfl,
    arctan2_scaled_circle hcos (neg_pi_lt_radians ha1) (radians_le_pi (le_of_lt ha2)),
    degrees_radians]

/-- C1: for azimuth a in (-180,180), elevation e in (-89,89) and distance
d > 0.01, calling set_orbit(a,e,d) and then get_orbit() returns a triple
whose components are each within 1e-4 of (a,e,d) (over the exact reals the
round trip is in fact exact). -/
theorem orbit_roundtrip_c1 (c : Camera3D) (a e d : ℝ)
    (ha1 : -180 < a) (ha2 : a < 180) (he1 : -89 < e) (he2 : e < 89)
    (hd : 0.01 < d) :
    |(c.set_orbit a e d).get_orbit.1 - a| ≤ 1e-4 ∧
    |(c.set_orbit a e d).get_orbit.2.1 - e| ≤ 1e-4 ∧
    |(c.set_orbit a e d).get_orbit.2.2 - d| ≤ 1e-4 := by
  have h := get_orbit_set_orbit_exact c a e d ha1 ha2 (by linarith) (by linarith) (by linarith)
  rw [h]
  norm_num

/-- Witness for C1 at the concrete orbit (30, 45, 5) on the default camera. -/
theorem orbit_roundtrip_c1_witness :
    |((Camera3D.init 800 600).set_orbit 30 45 5).get_orbit.1 - 30| ≤ 1e-4 ∧
    |((Camera3D.init 800 600).set_orbit 30 45 5).get_orbit.2.1 - 45| ≤ 1e-4 ∧
    |((Camera3D.init 800 600).set_orbit 30 45 5).get_orbit.2.2 - 5| ≤ 1e-4 :=
  orbit_roundtrip_c1 (Camera3D.init 800 600) 30 45 5 (by norm_num) (by norm_num)
    (by norm_num) (by norm_num) (by norm_num)

/-- C8: in the 3D primary-drag orbit update, the new elevation is clamped to
[-89, 89] before set_orbit is called: from orbit elevation 85 degrees, a drag
delta adding +10 degrees yields final elevation exactly 89 degrees. -/
theorem orbit_drag_elevation_clamp_c8 (cam : Camera3D) (dx dy sens : ℝ)
    (helev : cam.get_orbit.2.1 = 85) (hdelta : dy * sens = 10)
    (hdist : 0.001 ≤ cam.get_orbit.2.2) :
    (CameraController.update_3d_left_drag cam dx dy sens).get_orbit.2.1 = 89 := by
  have h89 : max (-89 : ℝ) (min 89 (cam.get_orbit.2.1 + dy * sens)) = 89 := by
    rw [helev, hdelta]
    norm_num
  show (cam.set_orbit (cam.get_orbit.1 - dx * sens)
      (max (-89) (min 89 (cam.get_orbit.2.1 + dy * sens))) cam.get_orbit.2.2).get_orbit.2.1 = 89
  rw [h89,
    get_orbit_set_orbit cam (cam.get_orbit.1 - dx * sens) 89 cam.get_orbit.2.2
      (by norm_num) (by norm_num) hdist]

/-- Witness for C8: camera at orbit (0, 85, 5), drag dy = 20 with
sensitivity 0.5 (so the raw delta is +10 degrees). -/
theorem orbit_drag_elevation_clamp_c8_witness :
    (CameraController.update_3d_left_drag
      ((Camera3D.init 800 600).set_orbit 0 85 5) 0 20 0.5).get_orbit.2.1 = 89 := by
  have h := get_orbit_set_orbit (Camera3D.init 800 600) 0 85 5
    (by norm_num) (by norm_num) (by norm_num)
  exact orbit_drag_elevation_clamp_c8 _ 0 20 0.5 (by rw [h]) (by norm_num)
    (by rw [h]; norm_num)

/-- C9: Camera3D.translate shifts the position and the target by the
identical delta vector, so position - target is unchanged by the call. -/
theorem translate_pan_invariant_c9 (c : Camera3D) (dx dy dz : ℝ) :
    (c.translate dx dy dz).position = c.position.add ⟨dx, dy, dz⟩ ∧
    (c.translate dx dy dz).target = c.target.add ⟨dx, dy, dz⟩ ∧
    (c.translate dx dy dz).position.sub (c.translate dx dy dz).target =
      c.position.sub c.target := by
  refine ⟨rfl, rfl, ?_⟩
  show (c.position.add ⟨dx, dy, dz⟩).sub (c.target.add ⟨dx, dy, dz⟩) = _
  simp only [Vec3.add, Vec3.sub, Vec3.mk.injEq]
  refine ⟨by ring, by ring, by ring⟩

/-- C7: out-of-range parameter inputs are recovered by clamping to the
nearest valid bound: Camera2D.set_zoom clamps zoom <= 0 up to 0.01,
Camera3D.set_fov lands in [1, 179], and point/line sizes below 1 clamp
to 1. -/
theorem clamping_setters_c7 :
    (∀ (c : Camera2D) (z : ℝ), z ≤ 0 → (c.set_zoom z).zoom = 0.01) ∧
    (∀ (c : Camera3D) (f : ℝ), 1 ≤ (c.set_fov f).fov ∧ (c.set_fov f).fov ≤ 179) ∧
    (∀ (p : PointGeometry) (s : ℝ), s < 1 → (p.set_point_size s).pointSize = 1) ∧
    (∀ (l : LineGeometry) (w : ℝ), w < 1 → (l.set_line_width w).lineWidth = 1) := by
  refine ⟨?_, ?_, ?_, ?_⟩
  · intro c z hz
    show max 0.01 z = 0.01
    exact max_eq_left (by linarith)
  · intro c f
    refine ⟨le_max_left 1 _, ?_⟩
    show max 1 (min 179 f) ≤ 179
    exact max_le (by norm_num) (min_le_left _ _)
  · intro p s hs
    show max 1 s = 1
    exact max_eq_left (le_of_lt hs)
  · intro l w hw
    show max 1 w = 1
    exact max_eq_left (le_of_lt hw)

/-- Witness for C7 at concrete out-of-range inputs. -/
theorem clamping_setters_c7_witness :
    ((Camera2D.init 800 600).set_zoom 0).zoom = 0.01 ∧
    (1 ≤ ((Camera3D.init 800 600).set_fov 500).fov ∧
      ((Camera3D.init 800 600).set_fov 500).fov ≤ 179) ∧
    (PointGeometry.init.set_point_size 0).pointSize = 1 ∧
    (LineGeometry.init.set_line_width 0).lineWidth = 1 :=
  ⟨clamping_setters_c7.1 _ 0 (by norm_num),
   clamping_setters_c7.2.1 _ 500,
   clamping_setters_c7.2.2.1 _ 0 (by norm_num),
   clamping_setters_c7.2.2.2 _ 0 (by norm_num)⟩

/-! Helper lemmas about the batch renderer embedding. -/

lemma create_buffers_batches (r : BatchRenderer) (vs : List QVertex)
    (is : Option (List ℕ)) : (r.create_buffers vs is).batches = r.batches := by
  unfold BatchRenderer.create_buffers
  split
  · rfl
  · cases is with
    | none => rfl
    | some l =>
      dsimp only
      split <;> rfl

lemma create_buffers_useIndices (r : BatchRenderer) (vs : List QVertex)
    (is : Option (List ℕ)) : (r.create_buffers vs is).useIndices = r.useIndices := by
  unfold BatchRenderer.create_buffers
  split
  · rfl
  · cases is with
    | none => rfl
    | some l =>
      dsimp only
      split <;> rfl

lemma create_buffers_bufferVertices (r : BatchRenderer) (vs : List QVertex)
    (is : Option (List ℕ)) : (r.create_buffers vs is).bufferVertices = vs := by
  unfold BatchRenderer.create_buffers
  split
  · simp_all
  · cases is with
    | none => rfl
    | some l =>
      dsimp only
      split <;> rfl

lemma create_buffers_bufferIndices_some (r : BatchRenderer) (vs : List QVertex)
    (l : List ℕ) (hvs : vs ≠ []) (hl : l ≠ []) :
    (r.create_buffers vs (some l)).bufferIndices = some l := by
  unfold BatchRenderer.create_buffers
  rw [if_neg hvs]
  dsimp only
  rw [if_neg hl]

lemma assignOffsets_length (bs : List RenderBatch) (off : ℕ) :
    (BatchRenderer.assignOffsets bs off).length = bs.length := by
  induction bs generalizing off with
  | nil => rfl
  | cons b tl ih =>
    simp [BatchRenderer.assignOffsets, ih]

/-- Record fields other than the vertex offset survive the offset pass, so a
map that ignores the offset commutes with it. -/
lemma assignOffsets_map_of_offset_free {β : Type} (f : RenderBatch → β)
    (hf : ∀ (b : RenderBatch) (off : ℕ), f { b with vertexOffset := off } = f b)
    (bs : List RenderBatch) (off : ℕ) :
    (BatchRenderer.assignOffsets bs off).map f = bs.map f := by
  induction bs generalizing off with
  | nil => rfl
  | cons b tl ih =>
    simp [BatchRenderer.assignOffsets, hf, ih]

/-- C5 counterexample: after build() on a renderer holding one queued batch,
the batch count is 1, not 0 — build() merges the queue but does not discard
it; only clear() empties it. -/
theorem batch_lifecycle_c5_counterexample :
    (((BatchRenderer.init BatchPrimitiveType.triangles).add_geometry
        [⟨0, 0, 0, 1, 0, 0⟩] none QMat4.identity).build).batch_count = 1 ∧
    (((BatchRenderer.init BatchPrimitiveType.triangles).add_geometry
        [⟨0, 0, 0, 1, 0, 0⟩] none QMat4.identity).build).batch_count ≠ 0 := by
  constructor
  · decide
  · decide

/-- C5 amended: batches are created by add_geometry and discarded by
clear(), whose batch count is 0 afterwards; build() consumes the queue into
the combined buffers but retains it, leaving the batch count unchanged. -/
theorem batch_lifecycle_c5_amended :
    (∀ rend : BatchRenderer, rend.clear.batch_count = 0) ∧
    (∀ rend : BatchRenderer, rend.build.batch_count = rend.batch_count) := by
  constructor
  · intro rend
    rfl
  · intro rend
    unfold BatchRenderer.build
    split
    · rfl
    · show ((BatchRenderer.create_buffers _ _ _).batches.length : ℕ) = _
      rw [create_buffers_batches]
      exact assignOffsets_length rend.batches 0

/-- C10 counterexample: an indexed add, then clear(), then a non-indexed
add leaves the sticky use-indices flag enabled, yet flush() issues a
non-indexed array draw (the indexed path also requires a positive combined
index count, which is 0 here). -/
theorem sticky_indices_c10_counterexample :
    ((((BatchRenderer.init BatchPrimitiveType.triangles).add_geometry
        [⟨0, 0, 0, 1, 0, 0⟩] (some [0]) QMat4.identity).clear).add_geometry
        [⟨0, 0, 0, 1, 0, 0⟩] none QMat4.identity).useIndices = true ∧
    (((((BatchRenderer.init BatchPrimitiveType.triangles).add_geometry
        [⟨0, 0, 0, 1, 0, 0⟩] (some [0]) QMat4.identity).clear).add_geometry
        [⟨0, 0, 0, 1, 0, 0⟩] none QMat4.identity).flush).2 = DrawCall.drawArrays 1 := by
  constructor
  · decide
  · decide

/-- C10 amended: once enabled, the use-indices flag survives clear(),
add_geometry and build() for the lifetime of the instance, but flush()
takes the indexed-drawing path only when the combined index count is also
positive; after clear() followed by only non-indexed adds the count is 0
and flush() issues an array draw despite the flag. -/
theorem sticky_indices_c10_amended :
    (∀ rend : BatchRenderer, rend.clear.useIndices = rend.useIndices) ∧
    (∀ (rend : BatchRenderer) (vs : List QVertex) (is : Option (List ℕ)) (t : QMat4),
      rend.useIndices = true → (rend.add_geometry vs is t).useIndices = true) ∧
    (∀ rend : BatchRenderer, rend.build.useIndices = rend.useIndices) ∧
    (∀ rend : BatchRenderer, rend.isDirty = false → rend.useIndices = true →
      rend.totalIndices = 0 → rend.vao ≠ 0 → rend.totalVertices ≠ 0 →
      rend.flush.2 = DrawCall.drawArrays rend.totalVertices) := by
  refine ⟨fun rend => rfl, ?_, ?_, ?_⟩
  · intro rend vs is t h
    unfold BatchRenderer.add_geometry
    split
    · exact h
    · show (rend.useIndices || is.isSome) = true
      rw [h]
      rfl
  · intro rend
    unfold BatchRenderer.build
    split
    · rfl
    · show (BatchRenderer.create_buffers _ _ _).useIndices = _
      rw [create_buffers_useIndices]
  · intro rend hdirty huse htot hvao hverts
    unfold BatchRenderer.flush
    rw [hdirty, if_neg (by simp : ¬(false = true)),
      if_neg (by push_neg; exact ⟨hvao, hverts⟩),
      if_neg (by rw [htot]; simp)]

/-- Witness for C10 amended, exercising the hypotheses of its second and
fourth conjuncts on the concrete clear-then-non-indexed-add scenario. -/
theorem sticky_indices_c10_witness :
    ((((BatchRenderer.init BatchPrimitiveType.triangles).add_geometry
        [⟨0, 0, 0, 1, 0, 0⟩] (some [0]) QMat4.identity).clear).add_geometry
        [⟨0, 0, 0, 1, 0, 0⟩] none QMat4.identity).useIndices = true ∧
    (((((BatchRenderer.init BatchPrimitiveType.triangles).add_geometry
        [⟨0, 0, 0, 1, 0, 0⟩] (some [0]) QMat4.identity).clear).add_geometry
        [⟨0, 0, 0, 1, 0, 0⟩] none QMat4.identity).build).flush.2 =
      DrawCall.drawArrays
        (((((BatchRenderer.init BatchPrimitiveType.triangles).add_geometry
          [⟨0, 0, 0, 1, 0, 0⟩] (some [0]) QMat4.identity).clear).add_geometry
          [⟨0, 0, 0, 1, 0, 0⟩] none QMat4.identity).build).totalVertices :=
  ⟨sticky_indices_c10_amended.2.1 _ _ _ _ (by decide),
   sticky_indices_c10_amended.2.2.2 _ (by decide) (by decide) (by decide)
     (by decide) (by decide)⟩

lemma apply_transform_eq_map_spec (vs : List QVertex) (t : QMat4) :
    BatchRenderer.apply_transform vs t = vs.map (fun v =>
      let p := specTransformPos t v.x v.y v.z
      ({ x := p.1, y := p.2.1, z := p.2.2, r := v.r, g := v.g, b := v.b } : QVertex)) := by
  unfold BatchRenderer.apply_transform specTransformPos QMat4.mulVec4
  split
  · next h =>
      subst h
      rfl
  · next h =>
      simp only [mul_one]

lemma merged_vertices_spec (bs : List RenderBatch) :
    (bs.map fun b => BatchRenderer.apply_transform b.vertices b.transform).flatten =
      specMergedVertices bs := by
  induction bs with
  | nil => rfl
  | cons b tl ih =>
    simp only [List.map_cons, List.flatten_cons, specMergedVertices, List.flatMap_cons]
    rw [apply_transform_eq_map_spec, ih]
    rfl

lemma specMergedVertices_ne_nil (bs : List RenderBatch) (hne : bs ≠ [])
    (hv : ∀ b ∈ bs, b.vertices ≠ []) : specMergedVertices bs ≠ [] := by
  cases bs with
  | nil => exact absurd rfl hne
  | cons b tl =>
    have hb : b.vertices ≠ [] := hv b (List.mem_cons_self b tl)
    simp only [specMergedVertices, List.flatMap_cons]
    intro hcontra
    rcases List.append_eq_nil.mp hcontra with ⟨h1, -⟩
    exact hb (List.map_eq_nil_iff.mp h1)

/-- Refinement of build(): the uploaded vertex buffer is exactly the
spec-side merged vertex list, for any dirty state with a nonempty queue. -/
lemma build_bufferVertices_eq_spec (rend : BatchRenderer)
    (hdirty : rend.isDirty = true) (hne : rend.batches ≠ []) :
    rend.build.bufferVertices = specMergedVertices rend.batches := by
  unfold BatchRenderer.build
  rw [if_neg (by push_neg; exact ⟨hne, by rw [hdirty]; simp⟩)]
  show (BatchRenderer.create_buffers _ _ _).bufferVertices = _
  rw [create_buffers_bufferVertices,
    assignOffsets_map_of_offset_free
      (fun b => BatchRenderer.apply_transform b.vertices b.transform)
      (fun b off => rfl) rend.batches 0]
  exact merged_vertices_spec rend.batches

/-- C2: build() transforms each queued batch's vertex positions by that
batch's 4x4 model matrix as a homogeneous transform (append w = 1, multiply,
divide by the resulting w) and passes every vertex's color channels through
unchanged; in particular a single vertex at local (1, 2, 3) merged under the
translation(+1, +2, +3) model matrix lands at (2, 4, 6) with its color. -/
theorem build_transform_c2 :
    (∀ rend : BatchRenderer, rend.isDirty = true → rend.batches ≠ [] →
      rend.build.bufferVertices = specMergedVertices rend.batches) ∧
    (((BatchRenderer.init BatchPrimitiveType.triangles).add_geometry
        [⟨1, 2, 3, 1/2, 1/4, 3/4⟩] none (QMat4.translation 1 2 3)).build).bufferVertices =
      [⟨2, 4, 6, 1/2, 1/4, 3/4⟩] := by
  constructor
  · exact build_bufferVertices_eq_spec
  · rw [build_bufferVertices_eq_spec _ (by simp [BatchRenderer.add_geometry, BatchRenderer.init])
      (by simp [BatchRenderer.add_geometry, BatchRenderer.init])]
    simp only [BatchRenderer.add_geometry, BatchRenderer.init, specMergedVertices,
      specTransformPos, QMat4.mulVec4, QMat4.translation, QMat4.identity]
    norm_num

/-- Witness for C2 on the concrete single-vertex translation scenario. -/
theorem build_transform_c2_witness :
    (((BatchRenderer.init BatchPrimitiveType.triangles).add_geometry
        [⟨1, 2, 3, 1/2, 1/4, 3/4⟩] none (QMat4.translation 1 2 3)).build).bufferVertices =
      specMergedVertices ((BatchRenderer.init BatchPrimitiveType.triangles).add_geometry
        [⟨1, 2, 3, 1/2, 1/4, 3/4⟩] none (QMat4.translation 1 2 3)).batches :=
  build_transform_c2.1 _ (by simp [BatchRenderer.add_geometry, BatchRenderer.init])
    (by simp [BatchRenderer.add_geometry, BatchRenderer.init])

lemma filterMap_rebase_flatten (bs : List RenderBatch) (n : ℕ)
    (hall : ∀ b ∈ bs, b.indices.isSome) :
    (((BatchRenderer.assignOffsets bs n).filterMap fun b =>
        b.indices.map fun is => is.map fun i => i + b.vertexOffset)).flatten =
      specRebasedIndices bs n := by
  induction bs generalizing n with
  | nil => rfl
  | cons b tl ih =>
    obtain ⟨is, his⟩ :=
      Option.isSome_iff_exists.mp (hall b (List.mem_cons_self b tl))
    simp only [BatchRenderer.assignOffsets, List.filterMap_cons, his, Option.map_some',
      List.flatten_cons, specRebasedIndices]
    rw [ih (n + b.vertexCount) (fun b hb => hall b (List.mem_cons_of_mem _ hb))]

lemma filterMap_rebase_ne_nil (bs : List RenderBatch) (n : ℕ)
    (hall : ∀ b ∈ bs, b.indices.isSome) (hne : bs ≠ []) :
    ((BatchRenderer.assignOffsets bs n).filterMap fun b =>
        b.indices.map fun is => is.map fun i => i + b.vertexOffset) ≠ [] := by
  cases bs with
  | nil => exact absurd rfl hne
  | cons b tl =>
    obtain ⟨is, his⟩ :=
      Option.isSome_iff_exists.mp (hall b (List.mem_cons_self b tl))
    simp [BatchRenderer.assignOffsets, List.filterMap_cons, his]

lemma combine_indices_assignOffsets (bs : List RenderBatch) (n : ℕ)
    (hall : ∀ b ∈ bs, b.indices.isSome) (hne : bs ≠ []) :
    BatchRenderer.combine_indices true (BatchRenderer.assignOffsets bs n) =
      some (specRebasedIndices bs n) := by
  unfold BatchRenderer.combine_indices
  rw [if_neg (by simp), if_neg (filterMap_rebase_ne_nil bs n hall hne),
    filterMap_rebase_flatten bs n hall]

lemma specRebasedIndices_ne_nil (bs : List RenderBatch) (n : ℕ) (hne : bs ≠ [])
    (hidx : ∀ b ∈ bs, ∃ is, b.indices = some is ∧ is ≠ []) :
    specRebasedIndices bs n ≠ [] := by
  cases bs with
  | nil => exact absurd rfl hne
  | cons b tl =>
    obtain ⟨is, his, hisne⟩ := hidx b (List.mem_cons_self b tl)
    simp [specRebasedIndices, his, hisne]

/-- Refinement of build() in indexed mode: the uploaded index buffer is
exactly the spec-side rebased concatenation of the queued index arrays. -/
lemma build_bufferIndices_eq_spec (rend : BatchRenderer)
    (hdirty : rend.isDirty = true) (huse : rend.useIndices = true)
    (hne : rend.batches ≠ [])
    (hv : ∀ b ∈ rend.batches, b.vertices ≠ [])
    (hidx : ∀ b ∈ rend.batches, ∃ is, b.indices = some is ∧ is ≠ []) :
    rend.build.bufferIndices = some (specRebasedIndices rend.batches 0) := by
  have hall : ∀ b ∈ rend.batches, b.indices.isSome := by
    intro b hb
    obtain ⟨is, his, -⟩ := hidx b hb
    rw [his]
    rfl
  have hcomb : (if rend.useIndices = true then
      BatchRenderer.combine_indices rend.useIndices
        (BatchRenderer.assignOffsets rend.batches 0) else none) =
      some (specRebasedIndices rend.batches 0) := by
    rw [huse, if_pos rfl]
    exact combine_indices_assignOffsets rend.batches 0 hall hne
  unfold BatchRenderer.build
  rw [if_neg (by push_neg; exact ⟨hne, by rw [hdirty]; simp⟩)]
  show (BatchRenderer.create_buffers _ _ _).bufferIndices = _
  rw [hcomb, create_buffers_bufferIndices_some]
  · rw [assignOffsets_map_of_offset_free
      (fun b => BatchRenderer.apply_transform b.vertices b.transform)
      (fun b off => rfl) rend.batches 0, merged_vertices_spec]
    exact specMergedVertices_ne_nil rend.batches hne hv
  · exact specRebasedIndices_ne_nil rend.batches 0 hne hidx

/-- C3: with all queued batches indexed, build() adds each batch's vertex
offset within the concatenated vertex buffer to that batch's index values
and concatenates the rebased arrays in insertion order; in particular two
3-vertex batches with indices [0,1,2] each merge to [0,1,2,3,4,5]. -/
theorem build_index_rebase_c3 :
    (∀ rend : BatchRenderer, rend.isDirty = true → rend.useIndices = true →
      rend.batches ≠ [] →
      (∀ b ∈ rend.batches, b.vertices ≠ []) →
      (∀ b ∈ rend.batches, ∃ is, b.indices = some is ∧ is ≠ []) →
      rend.build.bufferIndices = some (specRebasedIndices rend.batches 0)) ∧
    ((((BatchRenderer.init BatchPrimitiveType.triangles).add_geometry
        [⟨0, 0, 0, 1, 0, 0⟩, ⟨1, 0, 0, 0, 1, 0⟩, ⟨0, 1, 0, 0, 0, 1⟩]
        (some [0, 1, 2]) QMat4.identity).add_geometry
        [⟨2, 0, 0, 1, 0, 0⟩, ⟨3, 0, 0, 0, 1, 0⟩, ⟨2, 1, 0, 0, 0, 1⟩]
        (some [0, 1, 2]) QMat4.identity).build).bufferIndices =
      some [0, 1, 2, 3, 4, 5] := by
  constructor
  · exact build_bufferIndices_eq_spec
  · decide

/-- Witness for C3 on the concrete two-batch scenario. -/
theorem build_index_rebase_c3_witness :
    ((((BatchRenderer.init BatchPrimitiveType.triangles).add_geometry
        [⟨0, 0, 0, 1, 0, 0⟩, ⟨1, 0, 0, 0, 1, 0⟩, ⟨0, 1, 0, 0, 0, 1⟩]
        (some [0, 1, 2]) QMat4.identity).add_geometry
        [⟨2, 0, 0, 1, 0, 0⟩, ⟨3, 0, 0, 0, 1, 0⟩, ⟨2, 1, 0, 0, 0, 1⟩]
        (some [0, 1, 2]) QMat4.identity).build).bufferIndices =
      some (specRebasedIndices (((BatchRenderer.init BatchPrimitiveType.triangles).add_geometry
        [⟨0, 0, 0, 1, 0, 0⟩, ⟨1, 0, 0, 0, 1, 0⟩, ⟨0, 1, 0, 0, 0, 1⟩]
        (some [0, 1, 2]) QMat4.identity).add_geometry
        [⟨2, 0, 0, 1, 0, 0⟩, ⟨3, 0, 0, 0, 1, 0⟩, ⟨2, 1, 0, 0, 0, 1⟩]
        (some [0, 1, 2]) QMat4.identity).batches 0) :=
  build_index_rebase_c3.1 _ (by decide) (by decide) (by decide) (by decide)
    (by decide)

/-! Helper lemmas for the geometry generators. -/

lemma sphere_vertexRows_length (radius : ℝ) (segments rings : ℕ) (r g b : ℝ) :
    (SphereGeometry.vertexRows radius segments rings r g b).length =
      (rings + 1) * (segments + 1) := by
  unfold SphereGeometry.vertexRows
  rw [List.length_flatMap]
  simp only [Function.comp_def, List.length_map, List.length_range, List.map_const',
    List.sum_replicate, smul_eq_mul]

lemma sphere_index_bound (segments rings : ℕ) :
    ∀ i ∈ SphereGeometry.indexList segments rings, i < (rings + 1) * (segments + 1) := by
  intro i hi
  unfold SphereGeometry.indexList at hi
  simp only [List.mem_flatMap, List.mem_range, List.mem_cons, List.not_mem_nil,
    or_false] at hi
  obtain ⟨ring, hring, seg, hseg, hmem⟩ := hi
  have hprod : (ring + 2) * (segments + 1) ≤ (rings + 1) * (segments + 1) :=
    Nat.mul_le_mul_right _ (by omega)
  have hexp : (ring + 2) * (segments + 1) =
      ring * (segments + 1) + (2 * segments + 2) := by ring
  have hkey : ring * (segments + 1) + seg + segments + 2 <
      (rings + 1) * (segments + 1) := by
    have h2 : ring * (segments + 1) + seg + segments + 2 <
        (ring + 2) * (segments + 1) := by
      rw [hexp]
      omega
    exact lt_of_lt_of_le h2 hprod
  rcases hmem with rfl | rfl | rfl | rfl | rfl | rfl <;> omega

/-- C6: every indexed geometry generator (rectangle, cube, sphere) produces
index values strictly below its generated vertex count; for the sphere the
vertex count is (rings+1)*(segments+1) and every index is below it. -/
theorem geometry_index_bounds_c6 :
    (∀ (w h r g b : ℝ), ∀ i ∈ (RectangleGeometry.get_vertex_data w h r g b).2,
        i < (RectangleGeometry.get_vertex_data w h r g b).1.length) ∧
    (∀ (s r g b : ℝ), ∀ i ∈ (CubeGeometry.get_vertex_data s r g b).2,
        i < (CubeGeometry.get_vertex_data s r g b).1.length) ∧
    (∀ (radius r g b : ℝ) (segments rings : ℕ), 3 ≤ segments → 2 ≤ rings →
        (SphereGeometry.get_vertex_data radius segments rings r g b).1.length =
          (rings + 1) * (segments + 1) ∧
        (∀ i ∈ (SphereGeometry.get_vertex_data radius segments rings r g b).2,
          i < (rings + 1) * (segments + 1))) := by
  refine ⟨?_, ?_, ?_⟩
  · intro w h r g b i hi
    have hb : ∀ j ∈ RectangleGeometry.indexList, j < 4 := by decide
    have hi' : i ∈ RectangleGeometry.indexList := hi
    show i < (RectangleGeometry.vertexRows w h r g b).length
    exact hb i hi'
  · intro s r g b i hi
    have hb : ∀ j ∈ CubeGeometry.indexList, j < 8 := by decide
    have hi' : i ∈ CubeGeometry.indexList := hi
    show i < (CubeGeometry.vertexRows s r g b).length
    exact hb i hi'
  · intro radius r g b segments rings hseg hring
    exact ⟨sphere_vertexRows_length radius segments rings r g b,
      sphere_index_bound segments rings⟩

/-- Witness for C6: the rectangle at unit parameters and the sphere with
segments = 3, rings = 2 (vertex count 12, largest emitted index 11). -/
theorem geometry_index_bounds_c6_witness :
    (2 : ℕ) < (RectangleGeometry.get_vertex_data 1 1 1 1 1).1.length ∧
    (SphereGeometry.get_vertex_data 1 3 2 1 1 1).1.length = (2 + 1) * (3 + 1) ∧
    (11 : ℕ) < (2 + 1) * (3 + 1) :=
  ⟨geometry_index_bounds_c6.1 1 1 1 1 1 2 (by decide),
   (geometry_index_bounds_c6.2.2 1 1 1 1 3 2 (by norm_num) (by norm_num)).1,
   (geometry_index_bounds_c6.2.2 1 1 1 1 3 2 (by norm_num) (by norm_num)).2 11 (by decide)⟩

/-! Helper lemmas for the degenerate view-matrix construction (C4). -/

/-- The view matrix produced when the forward vector is zero: every basis
row and translation entry is zero; only entry [3][3] (kept from eye(4)'s
last row) is 1. -/
def degenerateViewMatrix : Mat4 :=
  ⟨0, 0, 0, 0, 0, 0, 0, 0, 0, 0, 0, 0, 0, 0, 0, 1⟩

lemma vec3_norm_zero : Vec3.norm ⟨0, 0, 0⟩ = 0 := by
  unfold Vec3.norm
  rw [show ((0:ℝ) ^ 2 + 0 ^ 2 + 0 ^ 2) = 0 by norm_num]
  exact Real.sqrt_zero

/-- With position = target the forward vector is zero, the two length guards
skip both normalizations, and the freshly rebuilt view matrix has all basis
rows zero: the prior basis is not retained. -/
lemma update_view_matrix_degenerate (c : Camera3D) (h : c.position = c.target) :
    c.update_view_matrix.viewMatrix = degenerateViewMatrix := by
  have hsub : c.target.sub c.position = ⟨0, 0, 0⟩ := by
    rw [h]
    simp [Vec3.sub]
  have hcross : ∀ v : Vec3, Vec3.cross ⟨0, 0, 0⟩ v = ⟨0, 0, 0⟩ := by
    intro v
    simp [Vec3.cross]
  simp only [Camera3D.update_view_matrix]
  rw [hsub, vec3_norm_zero, if_neg (lt_irrefl 0), hcross c.up, vec3_norm_zero,
    if_neg (lt_irrefl 0), hcross ⟨0, 0, 0⟩]
  show Mat4.mk 0 0 0 (-(Vec3.dot ⟨0, 0, 0⟩ c.position)) 0 0 0
      (-(Vec3.dot ⟨0, 0, 0⟩ c.position)) (-0) (-0) (-0)
      (Vec3.dot ⟨0, 0, 0⟩ c.position) 0 0 0 1 = degenerateViewMatrix
  unfold degenerateViewMatrix Vec3.dot
  simp

lemma vec3_norm_unit_x : Vec3.norm ⟨1, 0, 0⟩ = 1 := by
  unfold Vec3.norm
  rw [show ((1:ℝ) ^ 2 + 0 ^ 2 + 0 ^ 2) = 1 ^ 2 by norm_num]
  exact Real.sqrt_sq (by norm_num)

/-- The look-at pass on the default pose (eye (0,0,5), target origin,
up +Y) produces the basis row right = (1,0,0), so entry [0][0] is 1. -/
lemma update_view_matrix_default_m00 (a f n fr : ℝ) (vm pm : Mat4) :
    (Camera3D.update_view_matrix
      { aspect := a, position := ⟨0, 0, 5⟩, target := ⟨0, 0, 0⟩, up := ⟨0, 1, 0⟩
        fov := f, near := n, far := fr, viewMatrix := vm
        projectionMatrix := pm }).viewMatrix.m00 = 1 := by
  have hsub : Vec3.sub ⟨0, 0, 0⟩ ⟨0, 0, 5⟩ = ⟨0, 0, -5⟩ := by
    simp only [Vec3.sub, Vec3.mk.injEq]
    norm_num
  have hnorm : Vec3.norm ⟨0, 0, -5⟩ = 5 := by
    unfold Vec3.norm
    rw [show ((0:ℝ) ^ 2 + 0 ^ 2 + (-5) ^ 2) = 5 ^ 2 by norm_num]
    exact Real.sqrt_sq (by norm_num)
  have hdiv : Vec3.divScalar ⟨0, 0, -5⟩ 5 = ⟨0, 0, -1⟩ := by
    simp only [Vec3.divScalar, Vec3.mk.injEq]
    norm_num
  have hcross : Vec3.cross ⟨0, 0, -1⟩ ⟨0, 1, 0⟩ = ⟨1, 0, 0⟩ := by
    simp only [Vec3.cross, Vec3.mk.injEq]
    norm_num
  have hdiv1 : Vec3.divScalar ⟨1, 0, 0⟩ 1 = ⟨1, 0, 0⟩ := by
    simp only [Vec3.divScalar, Vec3.mk.injEq]
    norm_num
  simp only [Camera3D.update_view_matrix]
  rw [hsub, hnorm, if_pos (by norm_num : (5:ℝ) > 0), hdiv, hcross, vec3_norm_unit_x,
    if_pos (by norm_num : (1:ℝ) > 0), hdiv1]

/-- C4 counterexample: starting from the freshly initialised camera (basis
row right = (1,0,0), so view[0][0] = 1), moving the target onto the camera
position makes the rebuilt view matrix's basis rows all zero
(view[0][0] = 0): the degenerate camera does not keep its prior basis. -/
theorem degenerate_view_c4_counterexample :
    ((Camera3D.init 800 600).set_target 0 0 5).viewMatrix.m00 = 0 ∧
    (Camera3D.init 800 600).viewMatrix.m00 = 1 := by
  constructor
  · show (Camera3D.update_view_matrix _).viewMatrix.m00 = 0
    rw [update_view_matrix_degenerate _ rfl]
    rfl
  · show (Camera3D.update_view_matrix _).viewMatrix.m00 = 1
    exact update_view_matrix_default_m00 _ _ _ _ _ _

/-- C4 amended: when the forward vector (target minus eye) has length 0, the
view-matrix build skips both normalizations and completes without error, but
it rebuilds the matrix from the degenerate (zero) vectors: every basis row
of the new view matrix is zero (only entry [3][3] is 1), so the prior basis
is overwritten, not retained. -/
theorem degenerate_view_c4_amended (c : Camera3D) (h : c.position = c.target) :
    c.update_view_matrix.viewMatrix = degenerateViewMatrix :=
  update_view_matrix_degenerate c h

/-- Witness for C4 amended on the camera whose target was moved onto its
position. -/
theorem degenerate_view_c4_witness :
    ((Camera3D.init 800 600).set_target 0 0 5).update_view_matrix.viewMatrix =
      degenerateViewMatrix :=
  degenerate_view_c4_amended ((Camera3D.init 800 600).set_target 0 0 5) rfl
